import Mathlib

/-!
Shallow embedding of `src/python3_download_facescrub.py` (FaceScrub dataset
downloader) and proofs about the fetch-validate-persist pipeline it
implements.  Each Python function is translated to an executable Lean
definition; external capabilities (the network, `imghdr`, `python-magic`,
`mimetypes`, PIL) are modelled as explicit oracle inputs, and the SHA-256
compression function is an abstract parameter `H` (only the bytes absorbed
into it matter for the claims below).
-/

namespace FaceScrub

/-! ### Python string primitives (ASCII fragment, structural recursion) -/

/-- Whitespace characters stripped by Python `str.rstrip()` / `int()`
(ASCII fragment: space, tab, newline, carriage return, vertical tab,
form feed). -/
def isPySpace (c : Char) : Bool :=
  c = ' ' || c = '\t' || c = '\n' || c = '\r' || c = Char.ofNat 11 || c = Char.ofNat 12

/-- `s.rstrip()` on a character list: drop trailing whitespace. -/
def pyRstripList (s : List Char) : List Char :=
  (s.reverse.dropWhile isPySpace).reverse

/-- `s.strip()` on a character list: drop leading and trailing whitespace
(used by `int()` which ignores surrounding whitespace). -/
def pyStripList (s : List Char) : List Char :=
  ((s.dropWhile isPySpace).reverse.dropWhile isPySpace).reverse

/-- Python `s.split(sep)` for a single-character separator: splits at every
occurrence, keeping empty fields (so `"".split(t)` is `[""]`). -/
def splitOnChar (sep : Char) : List Char → List (List Char)
  | [] => [[]]
  | c :: cs =>
    if c = sep then [] :: splitOnChar sep cs
    else
      match splitOnChar sep cs with
      | [] => [[c]]
      | g :: gs => (c :: g) :: gs

/-- Decimal digit run to a number; fails on the empty run or a non-digit. -/
def decDigits? : List Char → Option Nat
  | [] => none
  | [c] => if c.isDigit then some (c.toNat - 48) else none
  | c :: cs =>
    if c.isDigit then
      (decDigits? cs).map (fun n => (c.toNat - 48) * 10 ^ cs.length + n)
    else none

/-- Python `int(s)` on decimal literals: surrounding whitespace ignored, an
optional single sign, then one or more digits; anything else raises
`ValueError`, modelled as `none`. -/
def pyInt? (s : String) : Option Int :=
  match pyStripList s.toList with
  | '-' :: ds => (decDigits? ds).map (fun n => -(n : Int))
  | '+' :: ds => (decDigits? ds).map (fun n => (n : Int))
  | ds => (decDigits? ds).map (fun n => (n : Int))

/-- `pat` is a leading segment of `s` (Python `s.startswith(pat)`). -/
def leadsWith : List Char → List Char → Bool
  | [], _ => true
  | _ :: _, [] => false
  | p :: ps, c :: cs => p == c && leadsWith ps cs

/-- Python `s.startswith(pat)`. -/
def pyStartswith (s pat : String) : Bool :=
  leadsWith pat.toList s.toList

/-- Python `s.lstrip(c)` for a single character: drop every leading `c`. -/
def pyLstripChar (c : Char) (s : String) : String :=
  String.mk (s.toList.dropWhile (fun x => x = c))

/-- Python `str(x)` for an optional string, as used by
`"{}.{}".format(outpath, filetype)`: `None` formats as the literal text
`"None"`. -/
def pyStrOpt : Option String → String
  | none => "None"
  | some s => s

/-! ### ManifestReader: `parse_line` -/

/-- One parsed FaceScrub manifest record (`parse_line`'s return tuple). -/
structure ManifestRecord where
  name : String
  image_id : Int
  face_id : Int
  url : String
  bbox : List Int
  sha256 : String

deriving instance Repr, DecidableEq for ManifestRecord

/-- Python `list(map(int, parts))`: every component must parse as an
integer, otherwise `ValueError` (modelled as `none`). -/
def pyMapInt : List String → Option (List Int)
  | [] => some []
  | s :: ss =>
    match pyInt? s, pyMapInt ss with
    | some i, some is => some (i :: is)
    | _, _ => none

/-- The field accesses of `parse_line` on the tab-split parts list:
`parts[0]` through `parts[5]` by position, with `int` conversion of
fields 1, 2 and of each comma-separated bbox component of field 4. An
out-of-range index (`IndexError`) or failed conversion (`ValueError`)
raises in Python; both are modelled as `none`. -/
def parseFields (parts : List String) : Option ManifestRecord :=
  match parts[0]?, parts[1]?, parts[2]?, parts[3]?, parts[4]?, parts[5]? with
  | some name, some p1, some p2, some url, some p4, some sha =>
    match pyInt? p1, pyInt? p2, pyMapInt ((splitOnChar ',' p4.toList).map String.mk) with
    | some image_id, some face_id, some bbox =>
      some ⟨name, image_id, face_id, url, bbox, sha⟩
    | _, _, _ => none
  | _, _, _, _, _, _ => none

/-- `parse_line(line)`: rstrip the line, split on tabs, read the six
fields `name, image_id, face_id, url, bbox, sha256`. -/
def parse_line (line : String) : Option ManifestRecord :=
  parseFields ((splitOnChar '\t' (pyRstripList line.toList)).map String.mk)

example : (parse_line "Brad Pitt\t1\t1\thttp://e.com/a.jpg\t10,10,100,100\tdeadbeef").isSome = true := by
  decide

example : parse_line "Brad Pitt\t1\t1\thttp://e.com/a.jpg\t10,10,100,100\tdeadbeef" =
    some ⟨"Brad Pitt", 1, 1, "http://e.com/a.jpg", [10, 10, 100, 100], "deadbeef"⟩ := by
  decide

example : (parse_line "a\tx\t2\tu\t1,2,3,4\ts").isSome = false := by decide

example : (parse_line "a\t1\t2\tu\t1,2,3,4").isSome = false := by decide

/-! ### BatchDriver: line selection (`islice`/`enumerate`) and the main loop -/

/-- Python `itertools.islice(l, start, stop)`: the elements with 0-based
indices in `[start, stop)`; `stop = none` means through the end. -/
def pyIslice {α : Type} (l : List α) (start : Nat) (stop : Option Nat) : List α :=
  match stop with
  | none => l.drop start
  | some st => (l.take st).drop start

/-- Python `enumerate(xs, k)`: pair each element with its counter,
counting from `k`. -/
def enumerateFrom {α : Type} (k : Nat) : List α → List (Nat × α)
  | [] => []
  | x :: xs => (k, x) :: enumerateFrom (k + 1) xs

/-- The manifest lines `main` iterates over, paired with their 1-based line
numbers, exactly as built by
`enumerate(islice(infile, start_at_line, end_at_line), start_at_line + 1)`
after `main` has rebound `end_at_line` to `args.end_at_line + 1` (when
positive, else `None`) and `start_at_line` to `args.start_at_line - 1`.
Arguments are the command-line values `--start_at_line` / `--end_at_line`. -/
def selectedLines (startAtLine endAtLine : Nat) (lines : List String) : List (Nat × String) :=
  let stop : Option Nat := if endAtLine > 0 then some (endAtLine + 1) else none
  enumerateFrom ((startAtLine - 1) + 1) (pyIslice lines (startAtLine - 1) stop)

/-- What the fetch/persist part of one record's processing does after its
line parsed. `download_image` never raises (its `except Exception` absorbs
everything), but `save_image` can: `returns` covers both functions
returning any value, upon which the loop just continues; `raisesEnv` is an
`EnvironmentError`/`OSError` escaping the record step (e.g. from the file
operations in `save_image`), which `main`'s `except EnvironmentError`
catches, logs, and thereby ends the loop; `raisesOther` is any other
uncaught exception escaping the record step (e.g. `save_image`'s
`AttributeError` when `mimetypes.guess_extension` yields `None`), which no
handler catches, crashing the run. -/
inductive StepOutcome where
  | returns : StepOutcome
  | raisesEnv : StepOutcome
  | raisesOther : StepOutcome

deriving instance Repr, DecidableEq for StepOutcome

/-- Outcome of one run of `main`'s manifest processing. `abortedEnv p`:
`main`'s `except EnvironmentError` handler caught the error (a failed
manifest open before any record, or an environment error raised mid-loop),
logged it, and the run ended normally after fully completing the records
with line numbers `p`. `crashed p`: an exception no handler catches ended
the process after fully completing `p`. `completed p`: the loop exhausted
its lines, `p` being all of them. -/
inductive RunResult where
  | abortedEnv : List Nat → RunResult
  | crashed : List Nat → RunResult
  | completed : List Nat → RunResult

deriving instance Repr, DecidableEq for RunResult

/-- The per-record loop of `main`, with `step` the oracle giving each
line's fetch/persist behaviour. For each selected line `parse_line` runs
first; on a malformed line it raises `ValueError`/`IndexError`, which no
handler inside the loop catches (the surrounding `try` catches only
`EnvironmentError`), so the run crashes there. Otherwise the record step
runs: an `EnvironmentError` from it ends the run through `main`'s handler,
any other exception crashes the run, and a normal return continues to the
next line (the values `download_image`/`save_image` return never alter
control flow). The result carries the line numbers of the records that
completed. -/
def batchLoop (step : Nat → StepOutcome) : List (Nat × String) → RunResult
  | [] => .completed []
  | (n, l) :: rest =>
    match parse_line l with
    | none => .crashed []
    | some _ =>
      match step n with
      | .raisesEnv => .abortedEnv []
      | .raisesOther => .crashed []
      | .returns =>
        match batchLoop step rest with
        | .completed p => .completed (n :: p)
        | .crashed p => .crashed (n :: p)
        | .abortedEnv p => .abortedEnv (n :: p)

/-- `main`'s manifest processing: failure to open the manifest raises
`EnvironmentError`, which the `try`/`except EnvironmentError` catches and
logs before any record is processed (the same handler that also catches an
environment error raised mid-loop, see `batchLoop`); otherwise the loop
runs over `selectedLines`. -/
def mainRun (openOk : Bool) (step : Nat → StepOutcome) (startAtLine endAtLine : Nat)
    (lines : List String) : RunResult :=
  if openOk then batchLoop step (selectedLines startAtLine endAtLine lines)
  else .abortedEnv []

example : (selectedLines 2 0 ["h", "a", "b"]).map Prod.fst = [2, 3] := by decide

example : (selectedLines 2 2 ["h", "a", "b"]).map Prod.fst = [2, 3] := by decide

/-! ### SHA-256 hashing: `hashfile` and `hashbinary` -/

/-- A `hashlib.sha256()` hasher, modelled by the byte sequence absorbed so
far; the digest is an abstract function `H` of exactly those bytes. -/
structure Hasher where
  absorbed : List Nat

/-- `hasher.update(buf)`: absorb more bytes. -/
def Hasher.update (h : Hasher) (buf : List Nat) : Hasher :=
  ⟨h.absorbed ++ buf⟩

/-- `hasher.hexdigest()`, with `H` the abstract SHA-256 hex-digest
function on the absorbed bytes. -/
def Hasher.hexdigest (H : List Nat → String) (h : Hasher) : String :=
  H h.absorbed

/-- The `while len(buf) > 0` loop of `hashfile`: read `blocksize` bytes,
absorb them, repeat until a read returns nothing. A file object is
modelled by its remaining contents; `afile.read(n)` returns the next
`min n remaining` bytes. -/
def hashfileLoop (blocksize : Nat) (h : Hasher) (remaining : List Nat) : Hasher :=
  if _hpos : 0 < (remaining.take blocksize).length then
    hashfileLoop blocksize (h.update (remaining.take blocksize)) (remaining.drop blocksize)
  else h
termination_by remaining.length
decreasing_by
  simp only [List.length_drop]
  simp only [List.length_take, lt_min_iff] at *
  omega

/-- `hashfile(afile, blocksize)` for a fresh hasher: chunked SHA-256 of a
file positioned at its start, returning the hex digest. -/
def hashfile (H : List Nat → String) (contents : List Nat) (blocksize : Nat := 65536) : String :=
  Hasher.hexdigest H (hashfileLoop blocksize ⟨[]⟩ contents)

/-- `hashbinary(raw_bytes)` for a fresh hasher: one-shot SHA-256 of a byte
sequence, returning the hex digest. -/
def hashbinary (H : List Nat → String) (raw_bytes : List Nat) : String :=
  Hasher.hexdigest H (Hasher.update ⟨[]⟩ raw_bytes)

/-! ### HttpFetcher: `get_referer`, `generate_headers`, `download_image` -/

/-- Characters `urllib.parse` accepts inside a URL scheme. -/
def validSchemeChar (c : Char) : Bool :=
  c.isAlpha || c.isDigit || c = '+' || c = '-' || c = '.'

/-- The scheme/rest split of `urllib.parse.urlparse`: if the text before
the first `:` is non-empty, starts with a letter and contains only scheme
characters, it is the scheme (lowercased) and the rest follows the `:`;
otherwise the scheme is empty and the rest is the whole URL. -/
def urlparseSchemeRest (url : List Char) : List Char × List Char :=
  match url.span (fun c => c ≠ ':') with
  | (before, ':' :: rest) =>
    if (match before with | c :: _ => c.isAlpha | [] => false) && before.all validSchemeChar then
      (before.map Char.toLower, rest)
    else ([], url)
  | _ => ([], url)

/-- The netloc of `urllib.parse.urlparse`: present only when the text
after the scheme starts with `//`, and then runs up to the next `/`, `?`
or `#`. -/
def urlparseNetloc (rest : List Char) : List Char :=
  match rest with
  | '/' :: '/' :: r => r.takeWhile (fun c => c ≠ '/' && c ≠ '?' && c ≠ '#')
  | _ => []

/-- `urlparse(url).scheme` as a string. -/
def urlScheme (url : String) : String :=
  String.mk (urlparseSchemeRest url.toList).1

/-- `urlparse(url).netloc` as a string. -/
def urlNetloc (url : String) : String :=
  String.mk (urlparseNetloc (urlparseSchemeRest url.toList).2)

/-- `get_referer(url)`: parse the URL, prepend `www.` to the netloc when
it starts with `fansshare` (the fansshare hack), and return
`scheme://netloc`. -/
def get_referer (url : String) : String :=
  let parsed := urlparseSchemeRest url.toList
  let scheme := String.mk parsed.1
  let netloc0 := String.mk (urlparseNetloc parsed.2)
  let netloc := if pyStartswith netloc0 "fansshare" then "www." ++ netloc0 else netloc0
  scheme ++ "://" ++ netloc

example : get_referer "http://example.com/a.jpg" = "http://example.com" := by decide

example : get_referer "http://fansshare.com/photo/a.jpg" = "http://www.fansshare.com" := by decide

/-- The exception classes the `except` chain of `download_image` can see.
`otherExn` stands for any exception outside the named classes; it is caught
by the final `except Exception` handler. -/
inductive TransportExn where
  | keyError : TransportExn
  | connectionError : TransportExn
  | httpError : TransportExn
  | timeout : TransportExn
  | tooManyRedirects : TransportExn
  | requestException : TransportExn
  | otherExn : TransportExn

deriving instance Repr, DecidableEq for TransportExn

/-- Outcome of `session.get(url, ...)`: either it raises a transport
exception, or it returns a response with an HTTP status code, a body (the
fully read `response.content` bytes) and an optional declared
`content-type` header. -/
inductive GetOutcome where
  | raises : TransportExn → GetOutcome
  | responds : Nat → List Nat → Option String → GetOutcome

deriving instance Repr, DecidableEq for GetOutcome

/-- The runtime environment one `download_image` call sees: what the HTTP
GET does, whether `python-magic` imported (`has_magic_lib`), and the MIME
string `magic.from_buffer(response.content, mime=True).decode("utf-8")`
yields on this body when the library is present. -/
structure FetchEnv where
  get : GetOutcome
  has_magic_lib : Bool
  magicMime : String

deriving instance Repr, DecidableEq for FetchEnv

/-- A `requests` response as `download_image` returns it on success. -/
structure Response where
  status : Nat
  content : List Nat
  headers_content_type : Option String

deriving instance Repr, DecidableEq for Response

/-- `response.raise_for_status()`: raises `HTTPError` exactly for client
(4xx) and server (5xx) error statuses, and does nothing otherwise. -/
def raise_for_status (status : Nat) : Except TransportExn Unit :=
  if 400 ≤ status ∧ status < 600 then .error .httpError else .ok ()

/-- The `try` body of `download_image`: GET the URL; if the status is not
200 call `raise_for_status`; determine the content type (by `magic` when
available, else the declared header, whose absence raises `KeyError`);
return `None` when the type does not start with `image` or when the
SHA-256 of the body differs from the manifest digest; otherwise return the
response. `H` is the abstract SHA-256 hex-digest function used by
`hashbinary`. -/
def download_image_body (env : FetchEnv) (sha256 : String) (H : List Nat → String) :
    Except TransportExn (Option Response) :=
  match env.get with
  | .raises e => .error e
  | .responds status content hdrCT =>
    match (if status ≠ 200 then raise_for_status status else .ok ()) with
    | .error e => .error e
    | .ok _ =>
      match (if env.has_magic_lib then some env.magicMime else hdrCT) with
      | none => .error .keyError
      | some content_type =>
        if ¬ (pyStartswith content_type "image") then .ok none
        else if hashbinary H content ≠ sha256 then .ok none
        else .ok (some ⟨status, content, hdrCT⟩)

/-- The `except` chain of `download_image`: `KeyError`, `ConnectionError`,
`HTTPError`, `Timeout`, `TooManyRedirects`, `RequestException` and the
final `except Exception` each log the error and return `None`. -/
def handleExn (e : TransportExn) : Option Response :=
  match e with
  | .keyError => none
  | .connectionError => none
  | .httpError => none
  | .timeout => none
  | .tooManyRedirects => none
  | .requestException => none
  | .otherExn => none

/-- `download_image(counter, url, sha256, timeout)`: run the body and
absorb every raised exception into `None`. -/
def download_image (env : FetchEnv) (sha256 : String) (H : List Nat → String) : Option Response :=
  match download_image_body env sha256 H with
  | .error e => handleExn e
  | .ok r => r

/-! ### ImagePersister: `save_image` -/

/-- The environment one `save_image` call sees, as oracles over the
written bytes: `imghdr.what(outpath)` (`imghdrType`), whether
`python-magic` imported (`has_magic_lib`), the deep sniff
`magic.from_buffer(response.content, mime=True)` (`magicMime`, `none`
models Python `None`), `mimetypes.guess_extension(mimetype)` (`guessExt`,
with its leading dot), and whether the PIL open/crop/save step succeeds
(`cropOk = false` models an `IOError` there). -/
structure SniffEnv where
  imghdrType : Option String
  has_magic_lib : Bool
  magicMime : Option String
  guessExt : Option String
  cropOk : Bool

deriving instance Repr, DecidableEq for SniffEnv

/-- What is observable after `save_image` returns: `ret` is its Python
return value (`none` models an exception escaping uncaught),
`tempFileLeft` says whether the extension-less temporary file still exists,
`fullExt` is the extension of the renamed full image when the rename
happened, and `faceExt` the extension of the saved face crop when one was
written. -/
structure SaveOutcome where
  ret : Option Bool
  tempFileLeft : Bool
  fullExt : Option String
  faceExt : Option String

deriving instance Repr, DecidableEq for SaveOutcome

/-- The tail of `save_image` from the rename on: move the temporary file
to `outpath.<extStr>`, then, when `save_face` is set, open/crop/save the
face image with the same extension, returning `False` on an `IOError`
(the full image stays renamed either way). -/
def renameThenCrop (env : SniffEnv) (save_face : Bool) (extStr : String) : SaveOutcome :=
  if save_face then
    if env.cropOk then ⟨some true, false, some extStr, some extStr⟩
    else ⟨some false, false, some extStr, none⟩
  else ⟨some true, false, some extStr, none⟩

/-- `save_image(...)`: write the body to an extension-less temporary path,
type it with `imghdr.what`; if that fails and magic is absent, delete the
temporary file and return `False`; if magic is present, sniff a MIME type
(`None` returns `False` with the temporary file still on disk), then
`mimetypes.guess_extension(mimetype).lstrip('.')` (a `None` extension
raises `AttributeError` on the `lstrip`, modelled as `ret = none`);
`filetype` is rebound only when the extension is the alias `jpe` (to
`jpeg`), so in every other magic-determined case the rename uses
`str(None)`. Finally rename and optionally crop. -/
def save_image (env : SniffEnv) (save_face : Bool) : SaveOutcome :=
  match env.imghdrType with
  | some filetype => renameThenCrop env save_face filetype
  | none =>
    if env.has_magic_lib = false then ⟨some false, false, none, none⟩
    else
      match env.magicMime with
      | none => ⟨some false, true, none, none⟩
      | some _ =>
        match env.guessExt with
        | none => ⟨none, true, none, none⟩
        | some e0 =>
          let ext := pyLstripChar '.' e0
          let filetype : Option String := if ext = "jpe" then some "jpeg" else none
          renameThenCrop env save_face (pyStrOpt filetype)

example : save_image ⟨some "jpeg", false, none, none, true⟩ false =
    ⟨some true, false, some "jpeg", none⟩ := by decide

example : save_image ⟨none, true, some "image/jpeg", some ".jpe", true⟩ false =
    ⟨some true, false, some "jpeg", none⟩ := by decide

/-! ### Theorems -/

/-- `hashfileLoop` absorbs exactly the remaining file contents, in order,
whenever the block size is positive. -/
theorem hashfileLoop_absorbed (blocksize : Nat) (hb : 0 < blocksize)
    (remaining : List Nat) (h : Hasher) :
    (hashfileLoop blocksize h remaining).absorbed = h.absorbed ++ remaining := by
  rw [hashfileLoop]
  split
  case isTrue hpos =>
    rw [hashfileLoop_absorbed blocksize hb (remaining.drop blocksize) (h.update (remaining.take blocksize))]
    simp only [Hasher.update, List.append_assoc, List.take_append_drop]
  case isFalse hpos =>
    simp only [List.length_take, lt_min_iff, not_and_or, Nat.not_lt, Nat.le_zero] at hpos
    have : remaining = [] := by
      rcases hpos with hz | hz
      · omega
      · exact List.length_eq_zero.mp hz
    simp [this]
termination_by remaining.length
decreasing_by
  simp only [List.length_drop]
  simp only [List.length_take, lt_min_iff] at *
  omega

/-- C10: for every byte sequence, the chunked file-based SHA-256 routine
`hashfile` (reading 65536-byte blocks until exhaustion) produces the same
hex digest as the one-shot in-memory routine `hashbinary` on the same
bytes. -/
theorem hashfile_eq_hashbinary (H : List Nat → String) (contents : List Nat) :
    hashfile H contents = hashbinary H contents := by
  unfold hashfile hashbinary Hasher.hexdigest
  rw [hashfileLoop_absorbed 65536 (by norm_num) contents ⟨[]⟩]
  simp [Hasher.update]

/-- C8: for every URL, `get_referer` returns `scheme://netloc` of the URL,
where the netloc gets `www.` prepended exactly when it begins with the
partner prefix `fansshare`, and is used verbatim otherwise. -/
theorem get_referer_spec (url : String) :
    get_referer url =
      urlScheme url ++ "://" ++
        (if pyStartswith (urlNetloc url) "fansshare" then "www." ++ urlNetloc url
         else urlNetloc url) := by
  rfl

/-- C1: with `--start_at_line 1 --end_at_line 1` on a two-line manifest of
well-formed records, the driver parses and processes lines 1 AND 2: the
`islice` stop bound `args.end_at_line + 1` keeps 0-based indices up to
`end_at_line`, i.e. 1-based lines up to `end_at_line + 1`, contradicting
the claim (and the script's own `--end_at_line` help text and banner) that
processing ends at line `end_at_line`. -/
theorem mainRun_processes_line_after_end :
    mainRun true (fun _ => StepOutcome.returns) 1 1
      ["a\t1\t2\tu\t1,2,3,4\tsha", "b\t3\t4\tv\t5,6,7,8\tshb"] =
      RunResult.completed [1, 2] := by
  decide

/-- C5: a persist in which only the deep (magic) sniffer determines the
type (here `image/png`, extension `.png`) succeeds but renames the file to
the literal extension `None`: `filetype` is reassigned only in the
`ext == "jpe"` branch, so for every other sniffed extension the rename
formats the still-`None` `filetype`. -/
theorem save_image_magic_type_renames_to_None :
    save_image ⟨none, true, some "image/png", some ".png", true⟩ false =
      ⟨some true, false, some "None", none⟩ := by
  decide

/-- C3 counterexample: with the magic library available but
`magic.from_buffer` returning `None`, `save_image` reports failure yet
leaves the extension-less temporary file on disk (no `os.remove` on that
path), contradicting the claim that an undeterminable type always deletes
the temporary file. -/
theorem save_image_magic_nomime_leaves_tempfile :
    save_image ⟨none, true, none, none, true⟩ false =
      ⟨some false, true, none, none⟩ := by
  decide

/-- C3 amended: when `imghdr` cannot type the bytes, (1) without the magic
library the temporary file is deleted and `False` returned; (2) with the
magic library but no sniffed MIME type, `False` is returned with the
temporary file left on disk; (3) with a sniffed MIME type that
`mimetypes.guess_extension` cannot map, the `lstrip` on `None` raises an
uncaught `AttributeError`, again with the temporary file left on disk. -/
theorem save_image_undetermined_type_cases (env : SniffEnv) (save_face : Bool)
    (himg : env.imghdrType = none) :
    (env.has_magic_lib = false →
      save_image env save_face = ⟨some false, false, none, none⟩) ∧
    (env.has_magic_lib = true → env.magicMime = none →
      save_image env save_face = ⟨some false, true, none, none⟩) ∧
    (env.has_magic_lib = true → env.magicMime ≠ none → env.guessExt = none →
      save_image env save_face = ⟨none, true, none, none⟩) := by
  refine ⟨?_, ?_, ?_⟩
  · intro hm
    simp [save_image, himg, hm]
  · intro hm hmm
    simp [save_image, himg, hm, hmm]
  · intro hm hmm hg
    rcases hcase : env.magicMime with _ | m
    · exact absurd hcase hmm
    · simp [save_image, himg, hm, hcase, hg]

/-- Witness for the C3 amended theorem at concrete environments. -/
theorem save_image_undetermined_type_cases_witness :
    save_image ⟨none, false, none, none, true⟩ true = ⟨some false, false, none, none⟩ ∧
    save_image ⟨none, true, none, none, true⟩ true = ⟨some false, true, none, none⟩ ∧
    save_image ⟨none, true, some "application/pdf", none, true⟩ true = ⟨none, true, none, none⟩ :=
  ⟨(save_image_undetermined_type_cases ⟨none, false, none, none, true⟩ true rfl).1 rfl,
   (save_image_undetermined_type_cases ⟨none, true, none, none, true⟩ true rfl).2.1 rfl rfl,
   (save_image_undetermined_type_cases ⟨none, true, some "application/pdf", none, true⟩ true
      rfl).2.2 rfl (by simp) rfl⟩

/-- C9: whenever a `save_image` call with face cropping enabled has
renamed the full image (its outcome records a full-image extension) and
the PIL open/crop/save step fails, the call returns `False` and saves no
face crop, while the full image artifact is exactly the one the same
environment produces with cropping disabled (the failure does not roll it
back). -/
theorem save_image_crop_failure_preserves_full_image (env : SniffEnv)
    (hcrop : env.cropOk = false) (x : String)
    (hfull : (save_image env true).fullExt = some x) :
    (save_image env true).ret = some false ∧
    (save_image env true).faceExt = none ∧
    (save_image env false).fullExt = some x := by
  rcases env with ⟨it, hm, mm, ge, co⟩
  have hco : co = false := hcrop
  subst hco
  cases it <;> cases hm <;> cases mm <;> cases ge <;>
    simp_all [save_image, renameThenCrop]

/-- Witness for the C9 theorem at a concrete environment. -/
theorem save_image_crop_failure_preserves_full_image_witness :
    (save_image ⟨some "png", false, none, none, false⟩ true).ret = some false ∧
    (save_image ⟨some "png", false, none, none, false⟩ true).faceExt = none ∧
    (save_image ⟨some "png", false, none, none, false⟩ false).fullExt = some "png" :=
  save_image_crop_failure_preserves_full_image ⟨some "png", false, none, none, false⟩ rfl "png" rfl

/-- Evaluation of `download_image` on a delivered response whose status is
not a 4xx/5xx error: the content type comes from magic when available and
from the declared header otherwise (its absence raising `KeyError`, caught
to `None`), and the response is returned exactly when the type starts with
`image` and the body hashes to the expected digest. -/
theorem download_image_responds_eval (s : Nat) (c : List Nat) (hd : Option String)
    (hm : Bool) (mm sha : String) (H : List Nat → String)
    (hstat : ¬ (400 ≤ s ∧ s < 600)) :
    download_image ⟨.responds s c hd, hm, mm⟩ sha H =
      match (if hm = true then some mm else hd) with
      | none => none
      | some ct =>
        if pyStartswith ct "image" = true ∧ hashbinary H c = sha
        then some ⟨s, c, hd⟩ else none := by
  have hok : (if s ≠ 200 then raise_for_status s else Except.ok ()) = Except.ok () := by
    by_cases h200 : s = 200
    · simp [h200]
    · simp [h200, raise_for_status, if_neg hstat]
  unfold download_image download_image_body
  dsimp only
  rw [hok]
  cases hmagic : (if hm = true then some mm else hd) with
  | none => simp [handleExn]
  | some ct =>
    by_cases h1 : pyStartswith ct "image" = true
    · by_cases h2 : hashbinary H c = sha
      · simp [h1, h2]
      · simp [h1, h2]
    · simp [h1]

/-- C6: on a delivered payload that passed the status check, validation
accepts (returns the response) iff the determined content type starts with
`image` AND the SHA-256 of the full body equals the manifest digest; the
result is otherwise `None`, and in particular a missing declared
content-type header with no magic library is a rejection (`KeyError`
caught to `None`), not a crash. -/
theorem download_image_validation_iff (s : Nat) (c : List Nat) (hd : Option String)
    (hm : Bool) (mm sha : String) (H : List Nat → String)
    (hstat : ¬ (400 ≤ s ∧ s < 600)) :
    (download_image ⟨.responds s c hd, hm, mm⟩ sha H = some ⟨s, c, hd⟩ ↔
      (∃ ct, (if hm = true then some mm else hd) = some ct ∧
        pyStartswith ct "image" = true ∧ hashbinary H c = sha)) ∧
    (download_image ⟨.responds s c hd, hm, mm⟩ sha H = some ⟨s, c, hd⟩ ∨
      download_image ⟨.responds s c hd, hm, mm⟩ sha H = none) ∧
    (hm = false → hd = none → download_image ⟨.responds s c hd, hm, mm⟩ sha H = none) := by
  rw [download_image_responds_eval s c hd hm mm sha H hstat]
  cases hmagic : (if hm = true then some mm else hd) with
  | none => simp
  | some ct =>
    dsimp only
    by_cases h1 : pyStartswith ct "image" = true ∧ hashbinary H c = sha
    · rw [if_pos h1]
      refine ⟨⟨fun _ => ⟨ct, rfl, h1.1, h1.2⟩, fun _ => rfl⟩, Or.inl rfl, ?_⟩
      intro hf hn
      rw [hf, hn] at hmagic
      simp at hmagic
    · rw [if_neg h1]
      refine ⟨?_, Or.inr rfl, fun _ _ => rfl⟩
      constructor
      · intro h
        exact absurd h (by simp)
      · rintro ⟨ct2, hct2, himg, hsha⟩
        injection hct2 with hq
        subst hq
        exact absurd ⟨himg, hsha⟩ h1

/-- Witness for the C6 theorem: a 200 response with a sniffed `image/jpeg`
type and a matching digest is accepted. -/
theorem download_image_validation_iff_witness :
    download_image ⟨.responds 200 [0] none, true, "image/jpeg"⟩ "d" (fun _ => "d") =
      some ⟨200, [0], none⟩ :=
  (download_image_validation_iff 200 [0] none true "image/jpeg" "d" (fun _ => "d")
      (by decide)).1.mpr ⟨"image/jpeg", rfl, rfl, rfl⟩

/-- C7 counterexample: a delivered response with the non-2xx status 304
(which `raise_for_status` does not turn into an `HTTPError`) whose body
sniffs as an image and hashes correctly is accepted, contradicting the
claim that every non-2xx status yields a failure result. -/
theorem download_image_accepts_status_304 :
    download_image ⟨.responds 304 [7] none, true, "image/jpeg"⟩ "d" (fun _ => "d") =
      some ⟨304, [7], none⟩ := by
  rfl

/-- C7 amended: `download_image` absorbs every transport exception
(connection error, timeout, too many redirects, HTTP error, request
exception, malformed header access, and any other exception) into `None`
rather than raising, and every 4xx/5xx HTTP status yields `None`; a
non-2xx status outside 400..599 is not rejected by the status check and
falls through to content validation. -/
theorem download_image_never_raises (hm : Bool) (mm sha : String) (H : List Nat → String) :
    (∀ e : TransportExn, download_image ⟨.raises e, hm, mm⟩ sha H = none) ∧
    (∀ (s : Nat) (c : List Nat) (hd : Option String), 400 ≤ s → s < 600 →
      download_image ⟨.responds s c hd, hm, mm⟩ sha H = none) := by
  constructor
  · intro e
    cases e <;> rfl
  · intro s c hd h4 h6
    have hs : s ≠ 200 := by omega
    unfold download_image download_image_body
    dsimp only
    have hraise : (if s ≠ 200 then raise_for_status s else Except.ok ()) =
        Except.error TransportExn.httpError := by
      simp [hs, raise_for_status, h4, h6]
    rw [hraise]
    rfl

/-- Witness for the C7 amended theorem: a timeout and a 404 both come back
as `None`. -/
theorem download_image_never_raises_witness :
    download_image ⟨.raises .timeout, true, "image/jpeg"⟩ "x" (fun _ => "y") = none ∧
    download_image ⟨.responds 404 [] none, true, "image/jpeg"⟩ "x" (fun _ => "y") = none :=
  ⟨(download_image_never_raises true "image/jpeg" "x" (fun _ => "y")).1 .timeout,
   (download_image_never_raises true "image/jpeg" "x" (fun _ => "y")).2 404 [] none
     (by decide) (by decide)⟩

/-- C2 counterexample: a run over a manifest whose first selected line is
malformed and whose second is well-formed crashes at the first line with
an uncaught parse exception, completing nothing — it does not skip the
line and continue as the claim states (which would give
`completed [2]`). -/
theorem mainRun_malformed_line_aborts :
    mainRun true (fun _ => StepOutcome.returns) 1 0
      ["bad line", "a\t1\t2\tu\t1,2,3,4\tsha"] = RunResult.crashed [] := by
  decide

/-- C2 amended: a malformed manifest line is NOT skipped — `parse_line`'s
`ValueError`/`IndexError` is caught by no handler in the loop, so the run
crashes there, having completed exactly the records before it (whatever
well-formed lines with normally returning fetch/persist steps precede it);
and failure to open the manifest raises `EnvironmentError`, caught and
logged, terminating before any record is processed. -/
theorem batch_abort_characterization :
    (∀ (step : Nat → StepOutcome) (s e : Nat) (lines : List String),
      mainRun false step s e lines = RunResult.abortedEnv []) ∧
    (∀ (step : Nat → StepOutcome) (pre : List (Nat × String)) (n : Nat) (l : String)
      (post : List (Nat × String)),
      (∀ p ∈ pre, (parse_line p.2).isSome = true ∧ step p.1 = StepOutcome.returns) →
      parse_line l = none →
      batchLoop step (pre ++ (n, l) :: post) = RunResult.crashed (pre.map Prod.fst)) := by
  refine ⟨fun step s e lines => rfl, ?_⟩
  intro step pre
  induction pre with
  | nil =>
    intro n l post _ hbad
    simp [batchLoop, hbad]
  | cons p ps ih =>
    intro n l post hall hbad
    obtain ⟨pn, pl⟩ := p
    obtain ⟨hok, hstep⟩ := hall ⟨pn, pl⟩ (List.mem_cons_self _ _)
    obtain ⟨r, hr⟩ := Option.isSome_iff_exists.mp hok
    have hrest := ih n l post (fun q hq => hall q (List.mem_cons_of_mem _ hq)) hbad
    simp [batchLoop, hr, hstep, hrest]

/-- Witness for the C2 amended theorem: a well-formed line followed by a
malformed one crashes after completing only the first. -/
theorem batch_abort_characterization_witness :
    batchLoop (fun _ => StepOutcome.returns)
      [(2, "a\t1\t2\tu\t1,2,3,4\tsha"), (3, "bad")] = RunResult.crashed [2] :=
  batch_abort_characterization.2 (fun _ => StepOutcome.returns)
    [(2, "a\t1\t2\tu\t1,2,3,4\tsha")] 3 "bad" []
    (by decide) (by decide)

/-- C4 counterexample: a line with SEVEN tab-separated fields whose bbox
field holds only THREE integers parses successfully (the extra field is
ignored and the bbox arity is never checked), contradicting the claim that
both conditions fail the parse. -/
theorem parse_line_extra_fields_accepted :
    (parse_line "a\t1\t2\tu\t1,2,3\tsha\textra").isSome = true := by
  decide

/-- Success of the positional field reads: at least six parts, integer
fields 1 and 2, and an all-integer comma split of field 4. -/
theorem parseFields_isSome_iff (parts : List String) :
    (parseFields parts).isSome = true ↔
      ∃ p0 p1 p2 p3 p4 p5 rest,
        parts = p0 :: p1 :: p2 :: p3 :: p4 :: p5 :: rest ∧
        (pyInt? p1).isSome = true ∧ (pyInt? p2).isSome = true ∧
        (pyMapInt ((splitOnChar ',' p4.toList).map String.mk)).isSome = true := by
  rcases parts with _ | ⟨p0, _ | ⟨p1, _ | ⟨p2, _ | ⟨p3, _ | ⟨p4, _ | ⟨p5, rest⟩⟩⟩⟩⟩⟩
  · simp [parseFields]
  · simp [parseFields]
  · simp [parseFields]
  · simp [parseFields]
  · simp [parseFields]
  · simp [parseFields]
  · rcases h1 : pyInt? p1 with _ | i1 <;>
      rcases h2 : pyInt? p2 with _ | i2 <;>
        rcases h4 : pyMapInt ((splitOnChar ',' p4.data).map String.mk) with _ | bb <;>
          simp_all [parseFields, String.toList] <;>
            first
              | (rintro a b c d e rfl rfl rfl rfl rfl hq1 hq2; simp_all)
              | exact ⟨p0, p1, p2, p3, p4, ⟨rfl, rfl, rfl, rfl, rfl⟩,
                  by simp [h1], by simp [h2], by simp [h4]⟩

/-- C4 amended: `parse_line` succeeds iff the rstripped line splits on
tabs into AT LEAST six fields, the second and third parse as integers, and
every comma-separated component of the fifth parses as an integer; fields
beyond the sixth are ignored and the number of bbox components is not
constrained to four. -/
theorem parse_line_success_characterization (line : String) :
    (parse_line line).isSome = true ↔
      ∃ p0 p1 p2 p3 p4 p5 rest,
        (splitOnChar '\t' (pyRstripList line.toList)).map String.mk
          = p0 :: p1 :: p2 :: p3 :: p4 :: p5 :: rest ∧
        (pyInt? p1).isSome = true ∧ (pyInt? p2).isSome = true ∧
        (pyMapInt ((splitOnChar ',' p4.toList).map String.mk)).isSome = true :=
  parseFields_isSome_iff ((splitOnChar '\t' (pyRstripList line.toList)).map String.mk)

end FaceScrub
